import Mathlib

/-!
Verification of the `dbdtct` web debug-mode scanner (`src/dbdtct.py`).

The scanner probes each target URL with a fixed battery of HTTP requests
(baseline GET, alternate methods, a malformed-JSON POST, an IP-substituted
GET, and a catalog of known debug paths) and scans each response body for
debug-indicator substrings.

The network, DNS resolution, hostname parsing (`urllib.parse.urlparse`) and
URL joining (`urllib.parse.urljoin`) are external library effects; they are
modelled by an explicit environment `Env`.  An HTTP attempt either raises
(modelled as `none`) or yields a status code and a body text.  The Python
functions `check_debug_patterns`, `make_request`, `check_url` and `scan_urls`
are embedded as pure Lean functions over that environment; `check_url` is
additionally instrumented to return the ordered list of requests it issues,
so that claims about request counts and short-circuiting are statable.
-/

namespace Dbdtct

/-- The debug-indicator substrings, verbatim from `DEBUG_PATTERNS` in
`src/dbdtct.py` (33 entries). -/
def DEBUG_PATTERNS : List String := [
  "DisallowedHost at",
  "phpdebugbar",
  "Whoops! There was an error",
  "X-Debug-Token:",
  "Symfony Web Debug Toolbar",
  "Struts Problem Report",
  "DebugKit",
  "Traceback (most recent call last):",
  "django.template",
  "TemplateSyntaxError",
  "ValueError:",
  "KeyError:",
  "TypeError:",
  "werkzeug.exceptions",
  "jinja2.exceptions",
  "Internal Server Error",
  "Exception Location:",
  "Request Method:",
  "Request URL:",
  "Python version:",
  "Laravel Debugbar",
  "Symfony\\Component\\",
  "Parse error:",
  "Fatal error:",
  "stack trace:",
  "in /var/www/",
  "java.lang.NullPointerException",
  "at org.springframework",
  "ExceptionReport",
  "ActionController::RoutingError",
  "ActiveRecord::",
  "Rails.root:",
  "rack.session"
]

/-- The known debug endpoints, verbatim from `KNOWN_DEBUG_PATHS` in
`src/dbdtct.py` (20 entries). -/
def KNOWN_DEBUG_PATHS : List String := [
  "symfony/profiler",
  "_debugbar",
  "wp-json/wp/v2/debug",
  "debug/default/view",
  "__debug__",
  "_profiler",
  "phpinfo.php",
  "debug/",
  "console/",
  "admin/console",
  "api/debug",
  "dev.php",
  "dev",
  "test.php",
  "test",
  "tests/",
  ".env",
  "config.php",
  "config.yml",
  "configuration.php"
]

/-- `METHODS` from `src/dbdtct.py`. -/
def METHODS : List String := ["GET", "POST", "PUT"]

/-- `MALFORMED_JSON` from `src/dbdtct.py`: a single deliberately
unterminated JSON object (the Python literal `'{"foo":"bar"'`). -/
def MALFORMED_JSON : List String := ["\x7b\"foo\":\"bar\""]

/-- Python's `str.lower()`, character by character (the catalog and the
texts of interest are ASCII, where `Char.toLower` agrees with Python). -/
def pyLower (s : String) : String :=
  String.mk (s.toList.map Char.toLower)

/-- Python's `str.startswith`: the prefix's characters head the string's. -/
def pyStartsWith (s pre : String) : Bool :=
  pre.toList.isPrefixOf s.toList

/-- Python's substring operator `needle in haystack`: some suffix of the
haystack has the needle as a prefix (the empty needle is contained in
every string, as in Python). -/
def pyContains (haystack needle : String) : Bool :=
  haystack.toList.tails.any fun t => needle.toList.isPrefixOf t

/-- Left-to-right, non-overlapping replacement of a non-empty pattern,
fuelled by the length of the scanned list. -/
def pyReplaceLoop (pat repl : List Char) : Nat → List Char → List Char
  | _, [] => []
  | 0, l => l
  | fuel + 1, c :: cs =>
    if pat.isPrefixOf (c :: cs) ∧ ¬ pat.isEmpty then
      repl ++ pyReplaceLoop pat repl fuel (cs.drop (pat.length - 1))
    else
      c :: pyReplaceLoop pat repl fuel cs

/-- Python's `str.replace(old, new)` on ASCII text: every non-overlapping
occurrence of `old`, scanned left to right, becomes `new`. -/
def pyReplace (s old new : String) : String :=
  String.mk (pyReplaceLoop old.toList new.toList s.toList.length s.toList)

/-- `DebugDetector.check_debug_patterns` (src/dbdtct.py:100-105): lowercase
the response text once, then return the first catalog pattern whose
lowercase form occurs in it, or `None`. -/
def check_debug_patterns (response_text : String) : Option String :=
  let response_lower := pyLower response_text
  DEBUG_PATTERNS.find? fun p => pyContains response_lower (pyLower p)

/-- One HTTP request as handed to the aiohttp session in `make_request`:
target URL, method name, optional body, and whether the JSON content-type
header was added (it is, exactly when the body starts with a brace,
src/dbdtct.py:110-111). -/
structure Req where
  url : String
  method : String
  data : Option String
  jsonContentType : Bool
deriving DecidableEq

/-- The external world: `http` models one aiohttp request/response cycle
(`none` = some exception was raised anywhere in the attempt, including
while reading the body; `some (status, text)` = a complete response);
`hostname` models `urlparse(url).hostname` (`none` = no hostname, on which
`gethostbyname` raises); `resolveHost` models `socket.gethostbyname`
(`none` = resolution raised); `urljoin` models `urllib.parse.urljoin`. -/
structure Env where
  http : Req → Option (Nat × String)
  hostname : String → Option String
  resolveHost : String → Option String
  urljoin : String → String → String

/-- The request value `make_request` sends for given url/method/data,
including the JSON content-type decision of src/dbdtct.py:110-111. -/
def reqOf (url method : String) (data : Option String) : Req :=
  { url := url, method := method, data := data,
    jsonContentType := match data with
      | some d => pyStartsWith d "\x7b"
      | none => false }

/-- `DebugDetector.make_request` (src/dbdtct.py:107-124): issue the
request; on a 404 return `(404, "")` without reading the body; otherwise
read the body and return `(status, text)`; if anything raised, return
`(0, "")`. -/
def make_request (env : Env) (url : String) (method : String := "GET")
    (data : Option String := none) : Nat × String :=
  match env.http (reqOf url method data) with
  | none => (0, "")
  | some (status, text) => if status = 404 then (404, "") else (status, text)

/-- A finding is a `(technique, fingerprint)` pair, as appended to
`results` in `check_url`. -/
def Finding := String × String
deriving instance DecidableEq for Finding

/-- The zero-or-one findings recorded for one response body under a given
technique label: `results.append((label, match))` when
`check_debug_patterns` matches (src/dbdtct.py:134-135 and the analogous
sub-probe sites). -/
def optFinding (label : String) (text : String) : List Finding :=
  match check_debug_patterns text with
  | some m => [(label, m)]
  | none => []

/-- The findings a sub-probe records: nothing on a 404 (`continue` /
`if status != 404` in src/dbdtct.py:140-141,154,168,183-184), otherwise
`optFinding` on the body. -/
def subProbeFinding (label : String) (status : Nat) (text : String) :
    List Finding :=
  if status = 404 then [] else optFinding label text

/-- The alternate-method probes of `check_url` (src/dbdtct.py:138-144):
for each method in `METHODS`, the request issued and the findings it
records. -/
def methodSteps (env : Env) (url : String) : List (Req × List Finding) :=
  METHODS.map fun m =>
    let r := make_request env url m none
    (reqOf url m none, subProbeFinding ("HTTP Method " ++ m) r.1 r.2)

/-- The malformed-JSON probes of `check_url` (src/dbdtct.py:147-159):
for each payload in `MALFORMED_JSON`, a POST carrying it and the findings
it records. -/
def malformedSteps (env : Env) (url : String) : List (Req × List Finding) :=
  MALFORMED_JSON.map fun malformed =>
    let r := make_request env url "POST" (some malformed)
    (reqOf url "POST" (some malformed),
     subProbeFinding ("Malformed JSON (" ++ malformed ++ ")") r.1 r.2)

/-- The IP-substitution probe of `check_url` (src/dbdtct.py:162-173):
resolve the URL's hostname, replace it by the IP in the URL, and GET that;
any failure of hostname extraction or resolution is swallowed and issues
no request. -/
def ipStep (env : Env) (url : String) : List Req × List Finding :=
  match env.hostname url with
  | none => ([], [])
  | some host =>
    match env.resolveHost host with
    | none => ([], [])
    | some ip =>
      let ip_url := pyReplace url host ip
      let r := make_request env ip_url "GET" none
      ([reqOf ip_url "GET" none], subProbeFinding "IP-based access" r.1 r.2)

/-- The known-path probes of `check_url` (src/dbdtct.py:176-187): for each
catalog path, GET `urljoin(url + "/", path)`; responses are processed in
catalog order (`zip(KNOWN_DEBUG_PATHS, debug_responses)`). -/
def pathSteps (env : Env) (url : String) : List (Req × List Finding) :=
  KNOWN_DEBUG_PATHS.map fun path =>
    let debug_url := env.urljoin (url ++ "/") path
    let r := make_request env debug_url "GET" none
    (reqOf debug_url "GET" none,
     subProbeFinding ("Debug path: " ++ path) r.1 r.2)

/-- `DebugDetector.check_url` (src/dbdtct.py:126-189), instrumented: the
first component is the ordered list of HTTP requests issued, the second is
the `(url, results)` pair the Python function returns.  A 404 on the
baseline GET returns immediately with empty results; otherwise the
baseline match and the four sub-probe groups contribute their findings in
program order. -/
def check_url (env : Env) (url : String) :
    List Req × String × List Finding :=
  let base := make_request env url "GET" none
  if base.1 = 404 then
    ([reqOf url "GET" none], url, [])
  else
    let ms := methodSteps env url
    let js := malformedSteps env url
    let ip := ipStep env url
    let ps := pathSteps env url
    (reqOf url "GET" none ::
       (ms.map Prod.fst ++ js.map Prod.fst ++ ip.1 ++ ps.map Prod.fst),
     url,
     optFinding "Simple GET" base.2 ++
       ((ms.map Prod.snd).flatten ++ (js.map Prod.snd).flatten ++
         ip.2 ++ (ps.map Prod.snd).flatten))

/-- The `(url, results)` report of `check_url`, without instrumentation. -/
def check_url_report (env : Env) (url : String) : String × List Finding :=
  (check_url env url).2

/-- `DebugDetector.scan_urls` (src/dbdtct.py:191-199): one `check_url`
task per URL; `asyncio.gather` returns their results in task order, i.e.
input order. -/
def scan_urls (env : Env) (urls : List String) : List (String × List Finding) :=
  urls.map (check_url_report env)

/-- Session-lifecycle events of one scan: `init_session` creating the
shared `aiohttp.ClientSession`, one event per HTTP request issued through
it, and `session.close()`. -/
inductive Event where
  | init : Event
  | request : Req → Event
  | close : Event
deriving DecidableEq

/-- The request events of all per-URL probers of one scan, in the task
order of `scan_urls`; under `asyncio.gather` the actual interleaving is an
arbitrary permutation-interleaving of these. -/
def probeEvents (env : Env) (urls : List String) : List Event :=
  (urls.map fun u => (check_url env u).1.map Event.request).flatten

/-- The event trace of `scan_urls` (src/dbdtct.py:191-199): first
`await self.init_session()`, then the gathered probe events (`mid`, some
interleaving of the per-URL request events), then
`await self.session.close()` — the `await asyncio.gather(*tasks)` on
line 194 completes before line 197 runs. -/
def scanTrace (mid : List Event) : List Event :=
  Event.init :: mid ++ [Event.close]

/-- Fixture: every request succeeds with a clean `200` response whose body
matches no catalog pattern; hostname extraction and DNS resolution
succeed; `urljoin` appends. -/
def envClean : Env :=
  { http := fun _ => some (200, ""),
    hostname := fun _ => some "x",
    resolveHost := fun _ => some "93.184.216.34",
    urljoin := fun a b => a ++ b }

/-- Fixture: every request answers `404` (with a body, which `make_request`
must discard). -/
def env404 : Env :=
  { http := fun _ => some (404, "irrelevant"),
    hostname := fun _ => none,
    resolveHost := fun _ => none,
    urljoin := fun a b => a ++ b }

/-- Fixture: every request raises at the transport level. -/
def envFail : Env :=
  { http := fun _ => none,
    hostname := fun _ => none,
    resolveHost := fun _ => none,
    urljoin := fun a b => a ++ b }

/-- The baseline GET request for the fixture target `http://x`. -/
def req0 : Req := reqOf "http://x" "GET" none

/-- Fixture: a deterministic server that answers the baseline GET for
`http://x` with a Python traceback banner and everything else with `404`;
the host has no resolvable hostname. -/
def envTB : Env :=
  { http := fun r =>
      if r = req0 then some (200, "Traceback (most recent call last):")
      else some (404, ""),
    hostname := fun _ => none,
    resolveHost := fun _ => none,
    urljoin := fun a b => a ++ b }

theorem pyContains_iff (haystack needle : String) :
    pyContains haystack needle = true ↔
      needle.toList <:+: haystack.toList := by
  unfold pyContains
  rw [List.any_eq_true, List.infix_iff_prefix_suffix]
  constructor
  · rintro ⟨t, ht, hp⟩
    exact ⟨t, List.isPrefixOf_iff_prefix.1 hp, (List.mem_tails _ _).1 ht⟩
  · rintro ⟨t, hp, hs⟩
    exact ⟨t, (List.mem_tails _ _).2 hs, List.isPrefixOf_iff_prefix.2 hp⟩

/-- C1: `check_debug_patterns` returns a non-empty result if and only if
the text contains at least one catalog substring, compared
case-insensitively (the pattern's lowercase form is a contiguous substring
of the text's lowercase form); for texts containing none it returns
`none`. -/
theorem check_debug_patterns_isSome_iff (text : String) :
    (check_debug_patterns text).isSome ↔
      ∃ p ∈ DEBUG_PATTERNS, (pyLower p).toList <:+: (pyLower text).toList := by
  unfold check_debug_patterns
  rw [List.find?_isSome]
  constructor
  · rintro ⟨p, hp, hc⟩
    exact ⟨p, hp, (pyContains_iff _ _).1 hc⟩
  · rintro ⟨p, hp, hc⟩
    exact ⟨p, hp, (pyContains_iff _ _).2 hc⟩

/-- C2: a target whose baseline GET answers 404 short-circuits: `check_url`
returns a report with an empty findings list, and the baseline GET is the
only request ever issued for that target. -/
theorem check_url_404_short_circuit (env : Env) (url body : String)
    (h : env.http (reqOf url "GET" none) = some (404, body)) :
    check_url env url = ([reqOf url "GET" none], url, []) := by
  simp [check_url, make_request, h]

/-- Witness for C2 at the all-404 fixture. -/
theorem check_url_404_short_circuit_witness :
    check_url env404 "http://x" = ([reqOf "http://x" "GET" none], "http://x", []) :=
  check_url_404_short_circuit env404 "http://x" "irrelevant" rfl

/-- C3: `make_request` is a total function of the environment's answer (the
embedding of the catch-all `except` of src/dbdtct.py:123-124): a raised
transport error (`none`) yields `(0, "")`, and a 404 yields `(404, "")`
for every response body, i.e. without the body being read. -/
theorem make_request_failure_and_404 (env : Env) (url method : String)
    (data : Option String) :
    (env.http (reqOf url method data) = none →
        make_request env url method data = (0, "")) ∧
    (∀ body, env.http (reqOf url method data) = some (404, body) →
        make_request env url method data = (404, "")) := by
  constructor
  · intro h
    simp [make_request, h]
  · intro body h
    simp [make_request, h]

/-- Witness for C3 at the all-failing and all-404 fixtures. -/
theorem make_request_failure_and_404_witness :
    make_request envFail "http://x" "GET" none = (0, "") ∧
    make_request env404 "http://x" "GET" none = (404, "") :=
  ⟨(make_request_failure_and_404 envFail "http://x" "GET" none).1 rfl,
   (make_request_failure_and_404 env404 "http://x" "GET" none).2 "irrelevant" rfl⟩

theorem check_url_report_url (env : Env) (url : String) :
    (check_url env url).2.1 = url := by
  rw [check_url]
  split <;> rfl

/-- C5: `scan_urls` returns exactly one report per input URL, in input
order, and each report's url field is the corresponding input URL. -/
theorem scan_urls_order (env : Env) (urls : List String) :
    (scan_urls env urls).map Prod.fst = urls ∧
    (scan_urls env urls).length = urls.length := by
  have hmap : (scan_urls env urls).map Prod.fst = urls := by
    rw [scan_urls, List.map_map]
    have : ∀ u ∈ urls, (Prod.fst ∘ check_url_report env) u = id u := by
      intro u _
      simpa [check_url_report] using check_url_report_url env u
    rw [List.map_congr_left this, List.map_id]
  exact ⟨hmap, by simpa using congrArg List.length hmap⟩

theorem check_debug_patterns_empty : check_debug_patterns "" = none := by
  decide

theorem optFinding_of_none (label text : String)
    (h : check_debug_patterns text = none) : optFinding label text = [] := by
  simp [optFinding, h]

theorem subProbeFinding_of_none (label : String) (status : Nat) (text : String)
    (h : check_debug_patterns text = none) :
    subProbeFinding label status text = [] := by
  simp [subProbeFinding, optFinding, h]

/-- If every body the environment delivers matches no pattern, neither does
any body `make_request` returns (`""` on failures and 404s, the delivered
body otherwise). -/
theorem make_request_clean (env : Env)
    (hclean : ∀ r status text, env.http r = some (status, text) →
        check_debug_patterns text = none)
    (url method : String) (data : Option String) :
    check_debug_patterns (make_request env url method data).2 = none := by
  rw [make_request]
  cases hh : env.http (reqOf url method data) with
  | none => exact check_debug_patterns_empty
  | some st =>
    obtain ⟨status, text⟩ := st
    by_cases h4 : status = 404
    · simp [h4, check_debug_patterns_empty]
    · simpa [h4] using hclean _ _ _ hh

theorem flatten_map_eq_nil {α β : Type} (l : List α) (g : α → List β)
    (h : ∀ a ∈ l, g a = []) : (l.map g).flatten = [] := by
  rw [List.flatten_eq_nil_iff]
  intro x hx
  obtain ⟨a, ha, rfl⟩ := List.mem_map.1 hx
  exact h a ha

/-- C4 counterexample: at a fixture where every probe succeeds cleanly
(status 200, no catalog substring, hostname resolution succeeding),
`check_url` attempts 26 HTTP requests, not 27 — the source's
`MALFORMED_JSON` holds a single payload, so the battery is
1 baseline + 3 methods + 1 malformed-JSON + 1 IP + 20 paths. -/
theorem clean_battery_count_counterexample :
    (make_request envClean "http://x" "GET" none).1 = 200 ∧
    (check_url envClean "http://x").2.2 = [] ∧
    (check_url envClean "http://x").1.length = 26 ∧
    ¬ (check_url envClean "http://x").1.length = 27 := by
  decide

/-- C4 (amended): for every target whose probed bodies all match no
catalog pattern, whose baseline GET is not a 404, and whose hostname
resolves, `check_url` returns empty findings after attempting exactly 26
HTTP requests (1 baseline + 3 methods + 1 malformed-JSON + 1 IP +
20 paths). -/
theorem check_url_clean_battery (env : Env) (url host ip : String)
    (hh : env.hostname url = some host)
    (hr : env.resolveHost host = some ip)
    (hb : ¬ (make_request env url "GET" none).1 = 404)
    (hclean : ∀ r status text, env.http r = some (status, text) →
        check_debug_patterns text = none) :
    (check_url env url).1.length = 26 ∧ (check_url env url).2.2 = [] := by
  have hmr := make_request_clean env hclean
  have hopt : ∀ (label url' method : String) (data : Option String),
      optFinding label (make_request env url' method data).2 = [] :=
    fun label url' method data => optFinding_of_none _ _ (hmr url' method data)
  have hsub : ∀ (label url' method : String) (data : Option String) (status : Nat),
      subProbeFinding label status (make_request env url' method data).2 = [] :=
    fun label url' method data status =>
      subProbeFinding_of_none _ _ _ (hmr url' method data)
  have hms : ((methodSteps env url).map Prod.snd).flatten = [] := by
    rw [methodSteps, List.map_map]
    exact flatten_map_eq_nil _ _ fun m _ => by simpa using hsub _ url m none _
  have hjs : ((malformedSteps env url).map Prod.snd).flatten = [] := by
    rw [malformedSteps, List.map_map]
    exact flatten_map_eq_nil _ _ fun j _ => by
      simpa using hsub _ url "POST" (some j) _
  have hip : (ipStep env url).2 = [] := by
    simp only [ipStep, hh, hr]
    simpa using hsub _ (pyReplace url host ip) "GET" none _
  have hps : ((pathSteps env url).map Prod.snd).flatten = [] := by
    rw [pathSteps, List.map_map]
    exact flatten_map_eq_nil _ _ fun p _ => by
      simpa using hsub _ (env.urljoin (url ++ "/") p) "GET" none _
  constructor
  · simp [check_url, hb, methodSteps, malformedSteps, ipStep, pathSteps,
      hh, hr, METHODS, MALFORMED_JSON, KNOWN_DEBUG_PATHS]
  · simp only [check_url, hb, if_false, ite_false, if_neg]
    simp [hopt, hms, hjs, hip, hps]

/-- Witness for C4's amended theorem at the clean fixture. -/
theorem check_url_clean_battery_witness :
    (check_url envClean "http://x").1.length = 26 ∧
    (check_url envClean "http://x").2.2 = [] :=
  check_url_clean_battery envClean "http://x" "x" "93.184.216.34" rfl rfl
    (by decide)
    (fun r status text h => by
      have h' : some ((200 : Nat), "") = some (status, text) := h
      injection h' with h2
      injection h2 with hs ht
      rw [← ht]
      exact check_debug_patterns_empty)

/-- C6 counterexample: on a deterministic fixture answering the baseline
GET for `http://x` with body `"Traceback (most recent call last):"` (and
404 elsewhere), the findings list has two entries, not one: the methods
loop re-issues the same GET and matches again as "HTTP Method GET". -/
theorem traceback_single_finding_counterexample :
    make_request envTB "http://x" "GET" none =
      (200, "Traceback (most recent call last):") ∧
    ¬ (check_url envTB "http://x").2.2.length = 1 ∧
    (check_url envTB "http://x").2.2 =
      [("Simple GET", "Traceback (most recent call last):"),
       ("HTTP Method GET", "Traceback (most recent call last):")] := by
  decide

/-- C6 (amended): a target whose baseline GET answers 200 with body
`"Traceback (most recent call last):"` while every other request answers
404 (and whose hostname does not parse, and whose joined debug paths
differ from the target URL) yields exactly two findings: technique
"Simple GET" and technique "HTTP Method GET", both with fingerprint equal
to the catalog pattern in its canonical case. -/
theorem check_url_traceback (env : Env) (url : String)
    (hbase : env.http (reqOf url "GET" none) =
      some (200, "Traceback (most recent call last):"))
    (hother : ∀ r, ¬ r = reqOf url "GET" none → env.http r = some (404, ""))
    (hhost : env.hostname url = none)
    (hjoin : ∀ p ∈ KNOWN_DEBUG_PATHS, ¬ env.urljoin (url ++ "/") p = url) :
    (check_url env url).2.2 =
      [("Simple GET", "Traceback (most recent call last):"),
       ("HTTP Method GET", "Traceback (most recent call last):")] := by
  have htb : check_debug_patterns "Traceback (most recent call last):" =
      some "Traceback (most recent call last):" := by decide
  have hGET : make_request env url "GET" none =
      (200, "Traceback (most recent call last):") := by
    simp [make_request, hbase]
  have hne : ∀ m : String, ¬ m = "GET" → ¬ reqOf url m none = reqOf url "GET" none :=
    fun m hm h => hm (congrArg Req.method h)
  have hPOST : make_request env url "POST" none = (404, "") := by
    rw [make_request, hother _ (hne "POST" (by decide))]
    rfl
  have hPUT : make_request env url "PUT" none = (404, "") := by
    rw [make_request, hother _ (hne "PUT" (by decide))]
    rfl
  have hmal : make_request env url "POST" (some "\x7b\"foo\":\"bar\"") = (404, "") := by
    rw [make_request, hother _ (fun h => by
      have := congrArg Req.method h
      simp [reqOf] at this)]
    rfl
  have hpath : ∀ p ∈ KNOWN_DEBUG_PATHS,
      make_request env (env.urljoin (url ++ "/") p) "GET" none = (404, "") := by
    intro p hp
    rw [make_request, hother _ (fun h => hjoin p hp (congrArg Req.url h))]
    rfl
  have hms : ((methodSteps env url).map Prod.snd).flatten =
      [("HTTP Method GET", "Traceback (most recent call last):")] := by
    simp [methodSteps, METHODS, hGET, hPOST, hPUT, subProbeFinding, optFinding, htb]
  have hjs : ((malformedSteps env url).map Prod.snd).flatten = [] := by
    simp [malformedSteps, MALFORMED_JSON, hmal, subProbeFinding]
  have hip : ipStep env url = ([], []) := by
    simp [ipStep, hhost]
  have hps : ((pathSteps env url).map Prod.snd).flatten = [] := by
    rw [pathSteps, List.map_map]
    refine flatten_map_eq_nil _ _ fun p hp => ?_
    simpa [hpath p hp] using subProbeFinding_of_none _ 404 _ check_debug_patterns_empty
  simp [check_url, hGET, hms, hjs, hip, hps, optFinding, htb]

/-- Witness for C6's amended theorem at the traceback fixture. -/
theorem check_url_traceback_witness :
    (check_url envTB "http://x").2.2 =
      [("Simple GET", "Traceback (most recent call last):"),
       ("HTTP Method GET", "Traceback (most recent call last):")] :=
  check_url_traceback envTB "http://x" (by decide)
    (fun r hr => if_neg hr) rfl (by decide)

/-- C7: after a non-404 baseline, each sub-probe independently contributes
its own findings — the findings list decomposes probe group by probe
group, with each group's entry a function of that probe's own outcome
alone; a 404 on a sub-probe records nothing for that technique; every
sub-probe records at most one finding; and the method sub-probes' results
depend only on the responses to the method requests themselves. -/
theorem check_url_subprobe_independence (env : Env) (url : String)
    (hb : ¬ (make_request env url "GET" none).1 = 404) :
    (check_url env url).2.2 =
      optFinding "Simple GET" (make_request env url "GET" none).2 ++
        (((methodSteps env url).map Prod.snd).flatten ++
          ((malformedSteps env url).map Prod.snd).flatten ++
          (ipStep env url).2 ++
          ((pathSteps env url).map Prod.snd).flatten) ∧
    (∀ label text, subProbeFinding label 404 text = []) ∧
    (∀ (label : String) (status : Nat) (text : String),
        (subProbeFinding label status text).length ≤ 1) ∧
    (∀ env₂ : Env,
      (∀ m ∈ METHODS, env₂.http (reqOf url m none) = env.http (reqOf url m none)) →
        methodSteps env₂ url = methodSteps env url) := by
  refine ⟨by simp [check_url, hb], fun label text => by simp [subProbeFinding],
    fun label status text => ?_, fun env₂ hagree => ?_⟩
  · unfold subProbeFinding optFinding
    split
    · simp
    · split <;> simp
  · unfold methodSteps
    refine List.map_congr_left fun m hm => ?_
    rw [make_request, make_request, hagree m hm]

/-- Witness for C7 at the clean fixture. -/
theorem check_url_subprobe_independence_witness :
    subProbeFinding "HTTP Method GET" 404 "Traceback (most recent call last):" = [] :=
  (check_url_subprobe_independence envClean "http://x" (by decide)).2.1
    "HTTP Method GET" "Traceback (most recent call last):"

theorem mem_optFinding {f : Finding} {label text : String}
    (h : f ∈ optFinding label text) :
    f.1 = label ∧ check_debug_patterns text = some f.2 := by
  cases hc : check_debug_patterns text <;> simp only [optFinding, hc] at h
  · exact absurd h (List.not_mem_nil f)
  · rw [List.mem_singleton] at h
    subst h
    exact ⟨rfl, rfl⟩

theorem mem_subProbeFinding {f : Finding} {label : String} {status : Nat}
    {text : String} (h : f ∈ subProbeFinding label status text) :
    f.1 = label ∧ check_debug_patterns text = some f.2 := by
  unfold subProbeFinding at h
  split at h
  · exact absurd h (List.not_mem_nil f)
  · exact mem_optFinding h

theorem subProbeFinding_length_le (label : String) (status : Nat)
    (text : String) : (subProbeFinding label status text).length ≤ 1 := by
  unfold subProbeFinding optFinding
  split
  · simp
  · split <;> simp

theorem flatten_map_label_sublist {α β γ : Type} (l : List α)
    (f : α → List β) (g : β → γ) (lab : α → γ)
    (hlab : ∀ a, ∀ b ∈ f a, g b = lab a)
    (hlen : ∀ a, (f a).length ≤ 1) :
    List.Sublist ((l.map f).flatten.map g) (l.map lab) := by
  induction l with
  | nil => simp
  | cons a l ih =>
    simp only [List.map_cons, List.flatten_cons, List.map_append]
    cases hfa : f a with
    | nil =>
      simpa using ih.cons (lab a)
    | cons b bs =>
      have hbs : bs = [] := by
        have := hlen a
        rw [hfa] at this
        simpa using this
      subst hbs
      have hg : g b = lab a := hlab a b (by rw [hfa]; exact List.mem_singleton_self b)
      simpa [hg] using ih.cons₂ (lab a)

/-- C8: after a non-404 baseline, the known-path findings form the final
segment of the findings list, and their technique labels occur in the
order of `KNOWN_DEBUG_PATHS` — the assembled list is a sublist of the
catalog-ordered labels `"Debug path: " ++ path`, not of any completion
order. -/
theorem path_findings_catalog_order (env : Env) (url : String)
    (hb : ¬ (make_request env url "GET" none).1 = 404) :
    (∃ pre, (check_url env url).2.2 =
        pre ++ ((pathSteps env url).map Prod.snd).flatten) ∧
    List.Sublist (((pathSteps env url).map Prod.snd).flatten.map Prod.fst)
      (KNOWN_DEBUG_PATHS.map (fun path => "Debug path: " ++ path)) := by
  constructor
  · exact ⟨optFinding "Simple GET" (make_request env url "GET" none).2 ++
      (((methodSteps env url).map Prod.snd).flatten ++
        ((malformedSteps env url).map Prod.snd).flatten ++ (ipStep env url).2),
      by simp [check_url, hb, List.append_assoc]⟩
  · have hmap : (pathSteps env url).map Prod.snd =
        KNOWN_DEBUG_PATHS.map (fun path =>
          subProbeFinding ("Debug path: " ++ path)
            (make_request env (env.urljoin (url ++ "/") path) "GET" none).1
            (make_request env (env.urljoin (url ++ "/") path) "GET" none).2) := by
      rw [pathSteps, List.map_map]
      rfl
    rw [hmap]
    exact flatten_map_label_sublist _ _ _ _
      (fun path b hb' => (mem_subProbeFinding hb').1)
      (fun path => subProbeFinding_length_le _ _ _)

/-- Witness for C8 at the clean fixture. -/
theorem path_findings_catalog_order_witness :
    List.Sublist (((pathSteps envClean "http://x").map Prod.snd).flatten.map Prod.fst)
      (KNOWN_DEBUG_PATHS.map (fun path => "Debug path: " ++ path)) :=
  (path_findings_catalog_order envClean "http://x" (by decide)).2

theorem probeEvents_request {env : Env} {urls : List String} {e : Event}
    (h : e ∈ probeEvents env urls) : ∃ r, e = Event.request r := by
  unfold probeEvents at h
  obtain ⟨l, hl, he⟩ := List.mem_flatten.1 h
  obtain ⟨u, hu, rfl⟩ := List.mem_map.1 hl
  obtain ⟨r, hr, rfl⟩ := List.mem_map.1 he
  exact ⟨r, rfl⟩

/-- C9: for every interleaving of the per-URL probe events that
`asyncio.gather` may produce (any permutation of `probeEvents`), the scan
trace starts with the single session initialization, ends with the single
session close, and each occurs exactly once — so no probe request is
issued after the close, and the close happens only after every probe
event. -/
theorem scan_session_lifecycle (env : Env) (urls : List String)
    (mid : List Event) (hmid : mid.Perm (probeEvents env urls)) :
    (scanTrace mid).head? = some Event.init ∧
    (scanTrace mid).getLast? = some Event.close ∧
    (scanTrace mid).count Event.init = 1 ∧
    (scanTrace mid).count Event.close = 1 := by
  have hmem : ∀ e ∈ mid, ∃ r, e = Event.request r := fun e he =>
    probeEvents_request (hmid.mem_iff.1 he)
  have hci : mid.count Event.init = 0 := by
    rw [List.count_eq_zero]
    intro hmem'
    obtain ⟨r, hr⟩ := hmem _ hmem'
    exact Event.noConfusion hr
  have hcc : mid.count Event.close = 0 := by
    rw [List.count_eq_zero]
    intro hmem'
    obtain ⟨r, hr⟩ := hmem _ hmem'
    exact Event.noConfusion hr
  refine ⟨rfl, ?_, ?_, ?_⟩
  · rw [scanTrace, List.getLast?_eq_head?_reverse]
    simp
  · simp [scanTrace, List.count_cons, List.count_append, hci]
  · simp [scanTrace, List.count_cons, List.count_append, hcc]

/-- Witness for C9 at the clean fixture with the canonical task-order
interleaving. -/
theorem scan_session_lifecycle_witness :
    (scanTrace (probeEvents envClean ["http://x"])).count Event.close = 1 :=
  (scan_session_lifecycle envClean ["http://x"]
    (probeEvents envClean ["http://x"]) (List.Perm.refl _)).2.2.2

/-- C10: `check_debug_patterns` is deterministic and first-match: a
returned fingerprint is a catalog member in its original case, it matches
the text, and no catalog pattern listed before it matches; consequently
every fingerprint recorded in any finding of `check_url` is a member of
`DEBUG_PATTERNS`. -/
theorem check_debug_patterns_first_match :
    (∀ text p, check_debug_patterns text = some p →
        p ∈ DEBUG_PATTERNS ∧
        pyContains (pyLower text) (pyLower p) = true ∧
        ∃ pre post, DEBUG_PATTERNS = pre ++ p :: post ∧
          ∀ q ∈ pre, pyContains (pyLower text) (pyLower q) = false) ∧
    (∀ (env : Env) (url : String) (f : Finding),
        f ∈ (check_url env url).2.2 → f.2 ∈ DEBUG_PATTERNS) := by
  constructor
  · intro text p h
    unfold check_debug_patterns at h
    rw [List.find?_eq_some] at h
    obtain ⟨hp, pre, post, hsplit, hpre⟩ := h
    refine ⟨by rw [hsplit]; simp, hp, pre, post, hsplit, fun q hq => ?_⟩
    simpa using hpre q hq
  · intro env url f hf
    have key : ∀ text, check_debug_patterns text = some f.2 →
        f.2 ∈ DEBUG_PATTERNS := fun text h => by
      unfold check_debug_patterns at h
      exact List.mem_of_find?_eq_some h
    rw [check_url] at hf
    split at hf
    · exact absurd hf (List.not_mem_nil f)
    · simp only [List.mem_append] at hf
      rcases hf with hf | (((hf | hf) | hf) | hf)
      · exact key _ (mem_optFinding hf).2
      · rw [methodSteps, List.map_map] at hf
        obtain ⟨l, hl, hfl⟩ := List.mem_flatten.1 hf
        obtain ⟨m, hm, rfl⟩ := List.mem_map.1 hl
        exact key _ (mem_subProbeFinding hfl).2
      · rw [malformedSteps, List.map_map] at hf
        obtain ⟨l, hl, hfl⟩ := List.mem_flatten.1 hf
        obtain ⟨j, hj, rfl⟩ := List.mem_map.1 hl
        exact key _ (mem_subProbeFinding hfl).2
      · rw [ipStep] at hf
        split at hf
        · exact absurd hf (List.not_mem_nil f)
        · split at hf
          · exact absurd hf (List.not_mem_nil f)
          · exact key _ (mem_subProbeFinding hf).2
      · rw [pathSteps, List.map_map] at hf
        obtain ⟨l, hl, hfl⟩ := List.mem_flatten.1 hf
        obtain ⟨path, hp, rfl⟩ := List.mem_map.1 hl
        exact key _ (mem_subProbeFinding hfl).2

/-- Witness for C10: a first-match instance and a recorded fingerprint. -/
theorem check_debug_patterns_first_match_witness :
    ("TypeError:" : String) ∈ DEBUG_PATTERNS ∧
    (("Simple GET", "Traceback (most recent call last):") : Finding).2 ∈
      DEBUG_PATTERNS :=
  ⟨(check_debug_patterns_first_match.1 "TypeError: x" "TypeError:"
      (by decide)).1,
   check_debug_patterns_first_match.2 envTB "http://x"
     ("Simple GET", "Traceback (most recent call last):") (by decide)⟩

end Dbdtct
